import Mathlib

/-!
Shallow embedding of the pointer-usage analyzer in `tsgo.go`.

The analyzer consists of a recursive type classifier `typeContainsPointer`,
a diagnostic formatter `printError`, and a scope-aware AST visitor that is
driven by `ast.Walk`.  The Go frontend (parser and type checker) is external
to the analyzed code: AST nodes are embedded with the data the analyzer
actually reads from them, namely the resolved type of each relevant
expression (the `types.Info.TypeOf` table), the node's printed position
(`fset.Position`), and the node's source text (`stringifyNode`).
-/

namespace Tsgo

/-- The sub-kinds of `*types.Basic` that matter to the classifier: the code
only ever compares a basic kind against `types.UnsafePointer`. -/
inductive BasicKind where
  | bool
  | int
  | int64
  | float64
  | string
  | unsafePointer
  deriving DecidableEq, Repr

/-- Embedding of `go/types.Type` restricted to the shapes the switch in
`typeContainsPointer` distinguishes.  `signature` and `tuple` stand for the
type shapes the switch does not mention, which reach the final
`return true, t` after the switch. -/
inductive GoType where
  | array (len : Nat) (elem : GoType)
  | basic (kind : BasicKind)
  | chan_ (elem : GoType)
  | interface_
  | map_ (key : GoType) (value : GoType)
  | named (name : String) (underlying : GoType)
  | pointer (elem : GoType)
  | slice (elem : GoType)
  | struct_ (fields : List GoType)
  | signature
  | tuple

mutual

/-- `typeContainsPointer` from `tsgo.go`.  In the `*types.Basic` case the Go
code returns `(true, t)` only under the guard `t.Kind() != types.UnsafePointer`;
when the guard fails the case body ends without returning, control leaves the
switch, and the function's final `return true, t` executes — so the
`unsafePointer` branch also yields `(true, t)`. -/
def typeContainsPointer : GoType → Bool × Option GoType
  | .array len elem => (true, some (.array len elem))
  | .basic kind =>
      if kind ≠ BasicKind.unsafePointer then
        (true, some (.basic kind))
      else
        -- Go fall-through to the final `return true, t` after the switch.
        (true, some (.basic kind))
  | .chan_ _ => (false, none)
  | .interface_ => (false, none)
  | .map_ key value => (true, some (.map_ key value))
  | .named _ underlying => typeContainsPointer underlying
  | .pointer elem => (true, some (.pointer elem))
  | .slice elem => (true, some (.slice elem))
  | .struct_ fields => structFieldsContainPointer fields
  | .signature => (true, some .signature)
  | .tuple => (true, some .tuple)

/-- The `for i := 0; i < numFields; i++` loop of the `*types.Struct` case,
expressed as recursion over the field list in declaration order. -/
def structFieldsContainPointer : List GoType → Bool × Option GoType
  | [] => (false, none)
  | fieldType :: rest =>
      let r := typeContainsPointer fieldType
      if r.1 then (true, r.2) else structFieldsContainPointer rest

end

mutual

/-- Textual form of a type, standing for the `%v` rendering of a
`types.Type` in `printError` (the frontend's `TypeString`). -/
def typeString : GoType → String
  | .array len elem => "[" ++ toString len ++ "]" ++ typeString elem
  | .basic .bool => "bool"
  | .basic .int => "int"
  | .basic .int64 => "int64"
  | .basic .float64 => "float64"
  | .basic .string => "string"
  | .basic .unsafePointer => "unsafe.Pointer"
  | .chan_ elem => "chan " ++ typeString elem
  | .interface_ => "interface\x7b\x7d"
  | .map_ key value => "map[" ++ typeString key ++ "]" ++ typeString value
  | .named name _ => name
  | .pointer elem => "*" ++ typeString elem
  | .slice elem => "[]" ++ typeString elem
  | .struct_ fields => "struct\x7b" ++ fieldListString fields ++ "\x7d"
  | .signature => "func()"
  | .tuple => "()"

/-- Renders a struct's field types, separated by semicolons. -/
def fieldListString : List GoType → String
  | [] => ""
  | [f] => typeString f
  | f :: rest => typeString f ++ "; " ++ fieldListString rest

end

/-- `printError` from `tsgo.go`, returning the line it prints.  `position`
stands for `fset.Position(node.Pos())` and `nodeText` for
`stringifyNode(fset, node)`, both supplied by the external frontend.  The
format string in the source is `"%s:warning: %s (%v)\n"`. -/
def printError (position : String) (nodeText : String) (message : String)
    (t : Option GoType) : String :=
  match t with
  | some ty => position ++ ":warning: " ++ message ++ " (" ++ typeString ty ++ ")\n"
  | none => position ++ ":warning: " ++ message ++ " (" ++ nodeText ++ ")\n"

/-- An expression node as the visitor sees it: its resolved type
(`info.TypeOf`), printed position, and source text. -/
structure Expr where
  ty : GoType
  pos : String
  text : String

/-- One `ast.Spec` of a `*ast.GenDecl`: the names it declares, its printed
position, and its source text. -/
structure VarSpec where
  names : List String
  pos : String
  text : String

/-- The subset of `go/token.Token` values a `GenDecl` can carry. -/
inductive Tok where
  | var_
  | const_
  | type_
  | import_
  deriving DecidableEq, Repr

/-- AST nodes as the visitor distinguishes them.  Each constructor carries
the data the corresponding `Visit` case reads plus the node's children (the
subtrees `ast.Walk` descends into after `Visit` returns).  `funcLit` is a
function literal (`*ast.FuncLit`), which the switch does not match;
`other` covers every other node kind. -/
inductive Node where
  | sendStmt (valueTy : GoType) (pos : String) (text : String) (children : List Node)
  | goStmt (funTy : GoType) (args : List Expr) (pos : String) (text : String)
      (children : List Node)
  | genDecl (tok : Tok) (specs : List VarSpec) (children : List Node)
  | funcDecl (children : List Node)
  | funcLit (children : List Node)
  | other (children : List Node)

/-- The arguments of one `printError` call: a finding. -/
structure Finding where
  pos : String
  nodeText : String
  message : String
  ty : Option GoType

/-- The `visitor` struct of `tsgo.go`.  `fset` and `info` are per-file
constants folded into the node embedding, so only the scope flag remains. -/
structure Visitor where
  isInsideFunction : Bool

/-- The `for _, arg := range n.Call.Args` loop of the `*ast.GoStmt` case. -/
def goArgFindings : List Expr → List Finding
  | [] => []
  | arg :: rest =>
      let r := typeContainsPointer arg.ty
      (if r.1 then
        [⟨arg.pos, arg.text, "calling goroutine with a pointer type", r.2⟩]
       else []) ++ goArgFindings rest

/-- `visitor.Visit` from `tsgo.go`: the findings it prints at this node and
the visitor it returns for the node's children.  The `*ast.FuncDecl` case
copies the visitor by value (`newVisitor := *v`) and forces the flag true;
every other case returns the receiver unchanged. -/
def visit (v : Visitor) : Node → List Finding × Visitor
  | .sendStmt valueTy pos text _ =>
      let r := typeContainsPointer valueTy
      ((if r.1 then [⟨pos, text, "sending pointer type over a channel", r.2⟩]
        else []), v)
  | .goStmt funTy args pos text _ =>
      let r := typeContainsPointer funTy
      ((if r.1 then [⟨pos, text, "calling goroutine on a pointer type", r.2⟩]
        else []) ++ goArgFindings args, v)
  | .genDecl tok specs _ =>
      ((if !v.isInsideFunction && tok = Tok.var_ then
          specs.map (fun spec => ⟨spec.pos, spec.text, "global var declared", none⟩)
        else []), v)
  | .funcDecl _ => ([], { v with isInsideFunction := true })
  | .funcLit _ => ([], v)
  | .other _ => ([], v)

mutual

/-- `ast.Walk` over the embedded AST: call `Visit`, then walk the children
with the visitor `Visit` returned, collecting findings in pre-order. -/
def walk (v : Visitor) : Node → List Finding
  | .sendStmt valueTy pos text children =>
      let r := visit v (.sendStmt valueTy pos text children)
      r.1 ++ walkList r.2 children
  | .goStmt funTy args pos text children =>
      let r := visit v (.goStmt funTy args pos text children)
      r.1 ++ walkList r.2 children
  | .genDecl tok specs children =>
      let r := visit v (.genDecl tok specs children)
      r.1 ++ walkList r.2 children
  | .funcDecl children =>
      let r := visit v (.funcDecl children)
      r.1 ++ walkList r.2 children
  | .funcLit children =>
      let r := visit v (.funcLit children)
      r.1 ++ walkList r.2 children
  | .other children =>
      let r := visit v (.other children)
      r.1 ++ walkList r.2 children

/-- Walks a node's children left to right. -/
def walkList (v : Visitor) : List Node → List Finding
  | [] => []
  | n :: rest => walk v n ++ walkList v rest

end

example :
    typeContainsPointer (GoType.basic BasicKind.unsafePointer)
      = (true, some (GoType.basic BasicKind.unsafePointer)) := rfl

example :
    typeContainsPointer (GoType.struct_
      [GoType.chan_ (GoType.basic .int), GoType.slice (GoType.basic .int)])
      = (true, some (GoType.slice (GoType.basic .int))) := rfl

example :
    walk ⟨false⟩ (Node.genDecl Tok.var_ [⟨["a", "b"], "main.go:3:5", "a, b int"⟩] [])
      = [⟨"main.go:3:5", "a, b int", "global var declared", none⟩] := rfl

example :
    walk ⟨false⟩ (Node.funcDecl
      [Node.genDecl Tok.var_ [⟨["a"], "main.go:4:6", "a int"⟩] []]) = [] := rfl

mutual

/-- A negative verdict always carries a null witness. -/
theorem tcp_false_none : (t : GoType) → (typeContainsPointer t).1 = false →
    (typeContainsPointer t).2 = none
  | .array _ _, h => by simp [typeContainsPointer] at h
  | .basic kind, h => by
      by_cases hk : kind = BasicKind.unsafePointer <;>
        simp [typeContainsPointer, hk] at h
  | .chan_ _, _ => rfl
  | .interface_, _ => rfl
  | .map_ _ _, h => by simp [typeContainsPointer] at h
  | .named _ underlying, h => tcp_false_none underlying h
  | .pointer _, h => by simp [typeContainsPointer] at h
  | .slice _, h => by simp [typeContainsPointer] at h
  | .struct_ fields, h => sfcp_false_none fields h
  | .signature, h => by simp [typeContainsPointer] at h
  | .tuple, h => by simp [typeContainsPointer] at h

/-- A negative verdict over a field list always carries a null witness. -/
theorem sfcp_false_none : (l : List GoType) → (structFieldsContainPointer l).1 = false →
    (structFieldsContainPointer l).2 = none
  | [], _ => rfl
  | f :: rest, h => by
      by_cases hc : (typeContainsPointer f).1
      · simp [structFieldsContainPointer, hc] at h
      · simp only [structFieldsContainPointer, hc, Bool.false_eq_true,
          if_false] at h ⊢
        exact sfcp_false_none rest h

end

/-- C1: the spec claims the opaque/raw-memory scalar sub-kind (unsafe
pointer) classifies as contains = false, every other scalar sub-kind as
contains = true with the type itself as witness.  The code's `*types.Basic`
case only returns under the guard `t.Kind() != types.UnsafePointer`; when
the kind is `UnsafePointer` it falls through the switch to the final
`return true, t`, so the unsafe-pointer scalar also classifies as
contains = true with itself as witness, making the guard dead code and
contradicting the spec.  This theorem evaluates the code at the failing
input and also proves the part of the claim about the other sub-kinds. -/
theorem unsafePointer_scalar_contains_true :
    typeContainsPointer (GoType.basic BasicKind.unsafePointer)
      = (true, some (GoType.basic BasicKind.unsafePointer))
    ∧ ∀ kind, typeContainsPointer (GoType.basic kind)
        = (true, some (GoType.basic kind)) :=
  ⟨rfl, fun kind => by cases kind <;> rfl⟩

/-- C6: classifying a named type delegates to its underlying type, both the
boolean and the witness propagated unchanged, and a named chain ending in a
channel type classifies as contains = false. -/
theorem named_alias_transparent :
    (∀ name underlying, typeContainsPointer (GoType.named name underlying)
        = typeContainsPointer underlying)
    ∧ typeContainsPointer (GoType.named "N1" (GoType.named "N2"
        (GoType.chan_ (GoType.basic BasicKind.int)))) = (false, none) :=
  ⟨fun _ _ => rfl, rfl⟩

/-- C8: the decision table on the non-recursive shape kinds.  Array, Map,
Pointer and Slice classify as contains = true with the type itself as
witness; Channel and Interface classify as contains = false; the shapes the
switch does not model (function signatures, tuples) hit the fallback
`return true, t`; and a negative verdict always has a null witness. -/
theorem classify_decision_table :
    (∀ len elem, typeContainsPointer (GoType.array len elem)
        = (true, some (GoType.array len elem)))
    ∧ (∀ key value, typeContainsPointer (GoType.map_ key value)
        = (true, some (GoType.map_ key value)))
    ∧ (∀ elem, typeContainsPointer (GoType.pointer elem)
        = (true, some (GoType.pointer elem)))
    ∧ (∀ elem, typeContainsPointer (GoType.slice elem)
        = (true, some (GoType.slice elem)))
    ∧ (∀ elem, typeContainsPointer (GoType.chan_ elem) = (false, none))
    ∧ typeContainsPointer GoType.interface_ = (false, none)
    ∧ typeContainsPointer GoType.signature = (true, some GoType.signature)
    ∧ typeContainsPointer GoType.tuple = (true, some GoType.tuple)
    ∧ (∀ t, (typeContainsPointer t).1 = false → (typeContainsPointer t).2 = none) :=
  ⟨fun _ _ => rfl, fun _ _ => rfl, fun _ => rfl, fun _ => rfl, fun _ => rfl,
    rfl, rfl, rfl, tcp_false_none⟩

/-- Witness for C8: the decision table applied to a concrete channel type. -/
theorem classify_decision_table_witness :
    (typeContainsPointer (GoType.chan_ (GoType.basic BasicKind.int))).1 = false
    ∧ (typeContainsPointer (GoType.chan_ (GoType.basic BasicKind.int))).2 = none :=
  ⟨rfl, classify_decision_table.2.2.2.2.2.2.2.2
    (GoType.chan_ (GoType.basic BasicKind.int)) rfl⟩

/-- C5: a struct classifies as contains = true iff some field classifies as
contains = true, the witness being the witness of the first such field in
declaration order, and as contains = false with null witness when no field
qualifies; in particular for fields [Channel, Slice, Pointer] the witness is
the slice (first qualifying field), not the pointer. -/
theorem struct_first_field_witness :
    (∀ fields, typeContainsPointer (GoType.struct_ fields)
        = (match fields.find? (fun f => (typeContainsPointer f).1) with
           | some f => ((true : Bool), (typeContainsPointer f).2)
           | none => ((false : Bool), (none : Option GoType))))
    ∧ typeContainsPointer (GoType.struct_
        [GoType.chan_ (GoType.basic BasicKind.int),
         GoType.slice (GoType.basic BasicKind.int),
         GoType.pointer (GoType.basic BasicKind.bool)])
      = (true, some (GoType.slice (GoType.basic BasicKind.int))) := by
  constructor
  · intro fields
    induction fields with
    | nil => rfl
    | cons f rest ih =>
      have hR : typeContainsPointer (GoType.struct_ (f :: rest))
          = (if (typeContainsPointer f).1
             then ((true : Bool), (typeContainsPointer f).2)
             else typeContainsPointer (GoType.struct_ rest)) := rfl
      rw [hR]
      by_cases hc : (typeContainsPointer f).1
      · rw [if_pos hc,
          show List.find? (fun f => (typeContainsPointer f).1) (f :: rest) = some f from
            List.find?_cons_of_pos rest hc]
      · rw [if_neg (by simp [hc]),
          show List.find? (fun f => (typeContainsPointer f).1) (f :: rest)
              = List.find? (fun f => (typeContainsPointer f).1) rest from
            List.find?_cons_of_neg rest (by simp [hc]), ih]
  · rfl

/-- C7: at a send statement the visitor classifies the resolved type of the
value being sent and emits exactly one "sending pointer type over a channel"
finding, annotated with the witness type, iff the verdict is positive;
sending a slice-typed value yields exactly one such finding referencing the
slice type. -/
theorem send_stmt_classifies_value :
    (∀ v valueTy pos text children,
        walk v (Node.sendStmt valueTy pos text children)
          = (if (typeContainsPointer valueTy).1 then
              [⟨pos, text, "sending pointer type over a channel",
                (typeContainsPointer valueTy).2⟩]
             else [])
            ++ walkList v children)
    ∧ walk ⟨false⟩ (Node.sendStmt (GoType.slice (GoType.basic BasicKind.int))
        "main.go:7:2" "ch <- s" [])
      = [⟨"main.go:7:2", "ch <- s", "sending pointer type over a channel",
          some (GoType.slice (GoType.basic BasicKind.int))⟩] :=
  ⟨fun _ _ _ _ _ => rfl, rfl⟩

/-- C2: the spec's example claims that spawning `f(p, x)` with `p` of
pointer type and `x` of the opaque scalar (unsafe pointer) type produces
exactly one "calling goroutine with a pointer type" finding, for `p` only.
Because the unsafe-pointer scalar falls through the classifier's switch to
the conservative `return true, t`, the code also flags `x`: the walk below
produces two argument findings (for `p` and for `x`) besides the
function-expression finding (a function signature is an unmodeled shape and
classifies as contains = true). -/
theorem go_stmt_unsafe_arg_also_flagged :
    walk ⟨false⟩ (Node.goStmt GoType.signature
      [⟨GoType.pointer (GoType.basic BasicKind.int), "main.go:5:8", "p"⟩,
       ⟨GoType.basic BasicKind.unsafePointer, "main.go:5:11", "x"⟩]
      "main.go:5:2" "go f(p, x)" [])
      = [⟨"main.go:5:2", "go f(p, x)", "calling goroutine on a pointer type",
          some GoType.signature⟩,
         ⟨"main.go:5:8", "p", "calling goroutine with a pointer type",
          some (GoType.pointer (GoType.basic BasicKind.int))⟩,
         ⟨"main.go:5:11", "x", "calling goroutine with a pointer type",
          some (GoType.basic BasicKind.unsafePointer)⟩] := rfl

/-- Counterexample to C3 as stated: a single declaration spec declaring the
two names `a` and `b` produces one "global var declared" finding (the loop
is over specs), not one finding per declared name. -/
theorem global_var_per_name_counterexample :
    (walk ⟨false⟩ (Node.genDecl Tok.var_
        [⟨["a", "b"], "main.go:3:5", "a, b int"⟩] [])).length = 1
    ∧ (VarSpec.mk ["a", "b"] "main.go:3:5" "a, b int").names.length = 2
    ∧ (walk ⟨false⟩ (Node.genDecl Tok.var_
        [⟨["a", "b"], "main.go:3:5", "a, b int"⟩] [])).length
        ≠ (VarSpec.mk ["a", "b"] "main.go:3:5" "a, b int").names.length :=
  ⟨rfl, rfl, by decide⟩

/-- C3 amended: at file scope (visitor flag false) a var declaration yields
one "global var declared" finding per declaration spec — a spec declaring
several names yields a single finding — annotated with the spec's source
text and no type; the same declaration nested inside a function
declaration's body yields zero findings. -/
theorem global_var_per_spec :
    (∀ specs children, walk ⟨false⟩ (Node.genDecl Tok.var_ specs children)
        = specs.map (fun spec => ⟨spec.pos, spec.text, "global var declared", none⟩)
          ++ walkList ⟨false⟩ children)
    ∧ (∀ v specs, walk v (Node.funcDecl [Node.genDecl Tok.var_ specs []]) = []) :=
  ⟨fun _ _ => rfl, fun _ _ => rfl⟩

/-- Counterexample to C4 as stated: the reporter's format string is
`"%s:warning: %s (%v)\n"`, with no space between the position and
`warning`, so the emitted line differs from the claimed form
`<position>: warning: <message> (<annotation>)`. -/
theorem printError_space_counterexample :
    printError "main.go:3:1" "var x int" "global var declared" none
        ≠ "main.go:3:1" ++ ": warning: " ++ "global var declared"
          ++ " (" ++ "var x int" ++ ")\n"
    ∧ printError "main.go:3:1" "var x int" "global var declared" none
        = "main.go:3:1:warning: global var declared (var x int)\n" :=
  ⟨by decide, rfl⟩

/-- C4 amended: every finding is reported as exactly one line
`<position>:warning: <message> (<annotation>)` (no space after the position
colon), where the annotation is the witness type's textual form when a type
was implicated and the node's source text otherwise. -/
theorem printError_line_format :
    ∀ position nodeText message t,
      printError position nodeText message t
        = position ++ ":warning: " ++ message ++ " ("
          ++ (match t with
              | some ty => typeString ty
              | none => nodeText)
          ++ ")\n" := by
  intro position nodeText message t
  cases t <;> rfl

/-- C9: descending into a function declaration's body uses a child scope
that is a value copy of the visitor with `isInsideFunction` forced true; the
visitor used for sibling and later nodes is the unchanged parent value. -/
theorem funcDecl_child_scope :
    (∀ v children, walk v (Node.funcDecl children)
        = walkList { v with isInsideFunction := true } children)
    ∧ (∀ v children rest, walkList v (Node.funcDecl children :: rest)
        = walkList { v with isInsideFunction := true } children ++ walkList v rest)
    ∧ (∀ v children, (visit v (Node.funcDecl children)).2
        = { v with isInsideFunction := true }) :=
  ⟨fun _ _ => rfl, fun _ _ _ => rfl, fun _ _ => rfl⟩

/-- C10: only the function-declaration case changes the visitor handed to a
node's children; a function literal (and every other node kind) passes the
receiver through unchanged, so a var declaration inside a function literal
that sits outside any function declaration's body is still reported as a
global var. -/
theorem funcLit_no_child_scope :
    (∀ v children, (visit v (Node.funcLit children)).2 = v)
    ∧ (∀ v children, walk v (Node.funcLit children) = walkList v children)
    ∧ (∀ v valueTy pos text children,
        (visit v (Node.sendStmt valueTy pos text children)).2 = v)
    ∧ (∀ v funTy args pos text children,
        (visit v (Node.goStmt funTy args pos text children)).2 = v)
    ∧ (∀ v tok specs children, (visit v (Node.genDecl tok specs children)).2 = v)
    ∧ (∀ v children, (visit v (Node.other children)).2 = v)
    ∧ walk ⟨false⟩ (Node.funcLit
        [Node.genDecl Tok.var_ [⟨["x"], "main.go:4:3", "x int"⟩] []])
      = [⟨"main.go:4:3", "x int", "global var declared", none⟩] :=
  ⟨fun _ _ => rfl, fun _ _ => rfl, fun _ _ _ _ _ => rfl, fun _ _ _ _ _ _ => rfl,
    fun _ _ _ _ => rfl, fun _ _ => rfl, rfl⟩

end Tsgo
